import Mathlib

/-!
Verification of the mcp-atlassian policy core: the credential resolver
(`utils/environment.py`), and the Zephyr tool layer (`servers/zephyr.py`)
with its write-access gate, envelope shaping and error taxonomy.

Shallow embedding conventions:
* Python `os.environ` is a `Store := String → Option String`; Python
  truthiness of `os.getenv(k)` (None and "" are falsy) is `truthy`.
* JSON documents / Python dicts crossing the tool boundary are `JValue`.
* Raised Python exceptions are `Fault` values; `str(e)` is `Fault.msg`,
  while `Fault.internal` stands for the traceback / internal object state
  attached to the exception, which `str(e)` never shows.
* Each tool returns its response dict, the list of backend-collaborator
  calls it performed, and the log records it emitted.
-/

namespace MCPAtlassian

/-- JSON-like dynamic values (Python objects produced by `json.loads` and
consumed by `json.dumps`). -/
inductive JValue where
  | null : JValue
  | bool : Bool → JValue
  | num : Int → JValue
  | str : String → JValue
  | arr : List JValue → JValue
  | obj : List (String × JValue) → JValue

/-- A flat key-value configuration store (the process environment). -/
def Store := String → Option String

/-- Python truthiness of `os.getenv(k)`: `None` and the empty string are
falsy, any other string is truthy. -/
def truthy : Option String → Bool
  | none => false
  | some s => !(s == "")

/-- `os.getenv(k, d)`: lookup with a default. -/
def getenvD (env : Store) (k d : String) : String :=
  (env k).getD d

/-- Build a concrete store from an association list (for witnesses). -/
def envOf (l : List (String × String)) : Store :=
  fun k => (l.find? (fun p => p.1 == k)).map (fun p => p.2)

/-- The authentication mode selected for a service.  Each constructor
corresponds one-to-one to a distinct `logger.info` branch of
`get_available_services` in `utils/environment.py`:
`oauthClientCredentials` ↔ "OAuth 2.0 (3LO) authentication",
`oauthProvidedToken` ↔ "... with provided access token",
`cloudBasic` ↔ "Cloud Basic Authentication (API Token)",
`serverPatOrBasic` ↔ "Server/Data Center authentication (PAT or Basic Auth)",
`minimalOAuthHeader` ↔ "minimal OAuth configuration", and
`unconfigured` ↔ no branch fired (the `*_is_setup` flag stays `False`). -/
inductive AuthMode where
  | oauthClientCredentials
  | oauthProvidedToken
  | cloudBasic
  | serverPatOrBasic
  | minimalOAuthHeader
  | unconfigured
deriving DecidableEq, Repr

/-- Python `str.lower()`, character by character. -/
def pyLower (s : String) : String :=
  String.mk (s.data.map Char.toLower)

/-- Whether the process-wide OAuth-enable flag is truthy:
`os.getenv("ATLASSIAN_OAUTH_ENABLE", "").lower() in ("true", "1", "yes")`. -/
def oauthEnableTruthy (env : Store) : Bool :=
  let v := pyLower (getenvD env "ATLASSIAN_OAUTH_ENABLE" "")
  v == "true" || v == "1" || v == "yes"

/-- Embeds the Confluence block of `get_available_services`
(`utils/environment.py` lines 13-66).  `isCloudUrl` stands for
`is_atlassian_cloud_url` (defined in `utils/urls.py`, outside the sources
verified here), passed as a parameter.  Returns the `confluence_is_setup`
flag together with the auth mode recording which branch set it. -/
def confluenceSetup (isCloudUrl : String → Bool) (env : Store) : Bool × AuthMode :=
  if truthy (env "CONFLUENCE_URL") then
    let url := (env "CONFLUENCE_URL").getD ""
    let is_cloud := isCloudUrl url
    if truthy (env "ATLASSIAN_OAUTH_CLIENT_ID")
        && truthy (env "ATLASSIAN_OAUTH_CLIENT_SECRET")
        && truthy (env "ATLASSIAN_OAUTH_REDIRECT_URI")
        && truthy (env "ATLASSIAN_OAUTH_SCOPE")
        && truthy (env "ATLASSIAN_OAUTH_CLOUD_ID") then
      (true, AuthMode.oauthClientCredentials)
    else if truthy (env "ATLASSIAN_OAUTH_ACCESS_TOKEN")
        && truthy (env "ATLASSIAN_OAUTH_CLOUD_ID") then
      (true, AuthMode.oauthProvidedToken)
    else if is_cloud then
      if truthy (env "CONFLUENCE_USERNAME") && truthy (env "CONFLUENCE_API_TOKEN") then
        (true, AuthMode.cloudBasic)
      else
        (false, AuthMode.unconfigured)
    else
      if truthy (env "CONFLUENCE_PERSONAL_TOKEN")
          || (truthy (env "CONFLUENCE_USERNAME") && truthy (env "CONFLUENCE_API_TOKEN")) then
        (true, AuthMode.serverPatOrBasic)
      else
        (false, AuthMode.unconfigured)
  else if oauthEnableTruthy env then
    (true, AuthMode.minimalOAuthHeader)
  else
    (false, AuthMode.unconfigured)

/-- Embeds the Jira block of `get_available_services`
(`utils/environment.py` lines 68-119), structurally identical to the
Confluence block with the `JIRA_*` keys. -/
def jiraSetup (isCloudUrl : String → Bool) (env : Store) : Bool × AuthMode :=
  if truthy (env "JIRA_URL") then
    let url := (env "JIRA_URL").getD ""
    let is_cloud := isCloudUrl url
    if truthy (env "ATLASSIAN_OAUTH_CLIENT_ID")
        && truthy (env "ATLASSIAN_OAUTH_CLIENT_SECRET")
        && truthy (env "ATLASSIAN_OAUTH_REDIRECT_URI")
        && truthy (env "ATLASSIAN_OAUTH_SCOPE")
        && truthy (env "ATLASSIAN_OAUTH_CLOUD_ID") then
      (true, AuthMode.oauthClientCredentials)
    else if truthy (env "ATLASSIAN_OAUTH_ACCESS_TOKEN")
        && truthy (env "ATLASSIAN_OAUTH_CLOUD_ID") then
      (true, AuthMode.oauthProvidedToken)
    else if is_cloud then
      if truthy (env "JIRA_USERNAME") && truthy (env "JIRA_API_TOKEN") then
        (true, AuthMode.cloudBasic)
      else
        (false, AuthMode.unconfigured)
    else
      if truthy (env "JIRA_PERSONAL_TOKEN")
          || (truthy (env "JIRA_USERNAME") && truthy (env "JIRA_API_TOKEN")) then
        (true, AuthMode.serverPatOrBasic)
      else
        (false, AuthMode.unconfigured)
  else if oauthEnableTruthy env then
    (true, AuthMode.minimalOAuthHeader)
  else
    (false, AuthMode.unconfigured)

/-- The diagnostic state of the Zephyr (test-management) resolution.
Each constructor corresponds to one branch of the Zephyr block of
`get_available_services` (`utils/environment.py` lines 121-129):
`configured` ↔ `logger.info("Using Zephyr ... Bearer token authentication")`,
`missingUrl` ↔ `logger.warning("... ZEPHYR_BASE_URL is missing ...")`,
`missingToken` ↔ `logger.warning("... ZEPHYR_API_TOKEN is missing ...")`,
`absent` ↔ neither variable present (no log from this block). -/
inductive ZephyrState where
  | configured
  | missingUrl
  | missingToken
  | absent
deriving DecidableEq, Repr

/-- Embeds the Zephyr block of `get_available_services`
(`utils/environment.py` lines 121-129): the `zephyr_is_setup` flag and the
diagnostic state of the branch taken. -/
def zephyrSetup (env : Store) : Bool × ZephyrState :=
  if truthy (env "ZEPHYR_API_TOKEN") && truthy (env "ZEPHYR_BASE_URL") then
    (true, ZephyrState.configured)
  else if truthy (env "ZEPHYR_API_TOKEN") && !truthy (env "ZEPHYR_BASE_URL") then
    (false, ZephyrState.missingUrl)
  else if truthy (env "ZEPHYR_BASE_URL") && !truthy (env "ZEPHYR_API_TOKEN") then
    (false, ZephyrState.missingToken)
  else
    (false, ZephyrState.absent)

/-- The dictionary returned by `get_available_services`
(`utils/environment.py` line 144). -/
structure Services where
  confluence : Bool
  jira : Bool
  zephyr : Bool
deriving DecidableEq, Repr

/-- Embeds `get_available_services` (`utils/environment.py`): the
availability map `{"confluence": ..., "jira": ..., "zephyr": ...}`. -/
def get_available_services (isCloudUrl : String → Bool) (env : Store) : Services :=
  { confluence := (confluenceSetup isCloudUrl env).1
    jira := (jiraSetup isCloudUrl env).1
    zephyr := (zephyrSetup env).1 }

/-- The kind of a raised Python exception as discriminated by the
`except` clauses and `isinstance` checks of `servers/zephyr.py`:
`notFound` ↔ `MCPAtlassianNotFoundError`, `authError` ↔
`MCPAtlassianAuthenticationError`, `valueError` ↔ `ValueError`,
`generic` ↔ any other `Exception`.  (The class hierarchy of
`exceptions.py` is not among the sources verified here; the kinds are
modelled as disjoint, matching the order of the `isinstance` tests.) -/
inductive FaultKind where
  | notFound
  | authError
  | valueError
  | generic
deriving DecidableEq, Repr

/-- A raised exception.  `msg` is what `str(e)` renders; `internal` stands
for the traceback / internal object state attached to the exception,
which `str(e)` never includes. -/
structure Fault where
  kind : FaultKind
  msg : String
  internal : String
deriving DecidableEq, Repr

/-- Log severities used by `servers/zephyr.py` (`logging.WARNING`,
`logging.ERROR`). -/
inductive Level where
  | warning
  | error
deriving DecidableEq, Repr

/-- Numeric severity, as in the `logging` module (`WARNING=30 < ERROR=40`). -/
def Level.toNat : Level → Nat
  | Level.warning => 30
  | Level.error => 40

/-- A record written to the operational log.  `exceptionLog` is
`logger.exception(context)`: it records the context message and the full
in-flight fault, traceback included.  `levelLog` is
`logger.log(lvl, msg)` / `logger.warning` / `logger.info`. -/
inductive LogRec where
  | exceptionLog (context : String) (fault : Fault)
  | levelLog (lvl : Level) (msg : String)
deriving DecidableEq, Repr

/-- Boolean substring test (Python `sub in s`). -/
def strContainsB (sub s : String) : Bool :=
  decide (sub.data <:+: s.data)

/-- Modelled from the spec: the `TestStepRequest` model
(`models/zephyr.py`, not among the sources verified here) — the payload
of one test step: a step description plus optional test data and
expected result. -/
structure TestStepRequest where
  step : String
  data : Option String
  result : Option String
deriving DecidableEq, Repr

/-- Interpret a dynamic value as an optional string field (`str | None`):
JSON null is `None`, a JSON string is itself, anything else fails
validation. -/
def asOptStr : JValue → Option (Option String)
  | JValue.null => some none
  | JValue.str s => some (some s)
  | _ => none

/-- Modelled from the spec: constructing a `TestStepRequest` from dynamic
values validates the fields (pydantic-style): `step` must be a string
(the schema marks it required; the call sites always pass a string or a
dynamic value), `data` and `result` must each be a string or `None`.  A
violation raises a validation error. -/
def TestStepRequest.validate (stepV dataV resultV : JValue) : Except Fault TestStepRequest :=
  match stepV with
  | JValue.str s =>
    match asOptStr dataV, asOptStr resultV with
    | some d, some r => Except.ok { step := s, data := d, result := r }
    | _, _ =>
      Except.error { kind := FaultKind.generic
                     msg := "validation error for TestStepRequest"
                     internal := "" }
  | _ =>
    Except.error { kind := FaultKind.generic
                   msg := "validation error for TestStepRequest"
                   internal := "" }

/-- Python `step_data.get(key, default)`: on a dict, look the key up
(falling back to the default when absent); on any non-dict value the
attribute access raises `AttributeError`. -/
def dictGet (v : JValue) (key : String) (default : JValue) : Except Fault JValue :=
  match v with
  | JValue.obj fields =>
    Except.ok (((fields.find? (fun p => p.1 == key)).map (fun p => p.2)).getD default)
  | _ =>
    Except.error { kind := FaultKind.generic
                   msg := "object has no attribute get"
                   internal := "" }

/-- One iteration of the step-construction loop of
`add_multiple_test_steps` (`servers/zephyr.py` lines 755-759):
`TestStepRequest(step=step_data.get("step", ""), data=step_data.get("data"),
result=step_data.get("result"))`. -/
def buildStepRequest (step_data : JValue) : Except Fault TestStepRequest := do
  let stepV ← dictGet step_data "step" (JValue.str "")
  let dataV ← dictGet step_data "data" JValue.null
  let resultV ← dictGet step_data "result" JValue.null
  TestStepRequest.validate stepV dataV resultV

/-- The step-construction loop of `add_multiple_test_steps`
(`servers/zephyr.py` lines 752-767): builds the requests in input order
and stops at the first element whose construction raises, reporting its
index. -/
def parseSteps : List JValue → Nat → Except (Nat × Fault) (List TestStepRequest)
  | [], _ => Except.ok []
  | d :: rest, i =>
    match buildStepRequest d with
    | Except.error e => Except.error (i, e)
    | Except.ok r =>
      match parseSteps rest (i + 1) with
      | Except.error ie => Except.error ie
      | Except.ok rs => Except.ok (r :: rs)

/-- The backend collaborator (the `ZephyrFetcher` client obtained from
`get_zephyr_fetcher`): one function per resource-client verb used by the
tools.  Domain objects are represented by their simplified dictionaries
(`to_simplified_dict()` is an external collaborator assumed correct). -/
structure ZephyrFetcher where
  get_testcase : String → Option String → Except Fault JValue
  create_testcase : JValue → Except Fault String
  update_testcase : String → JValue → Except Fault Unit
  delete_testcase : String → Except Fault Unit
  get_testplan : String → Option String → Except Fault JValue
  create_testplan : JValue → Except Fault String
  get_testrun : String → Option String → Except Fault JValue
  create_testrun : JValue → Except Fault String
  create_testresult : JValue → Except Fault String
  get_testcase_latest_result : String → Except Fault (Option JValue)
  get_testrun_results : String → Except Fault (List JValue)
  get_test_steps : String → String → Except Fault JValue
  add_test_step : String → String → TestStepRequest → Except Fault JValue
  add_multiple_test_steps : String → String → List TestStepRequest → Except Fault (List JValue)

/-- A call performed against the backend collaborator (the observable
side-effect trace of one tool invocation). -/
inductive BackendCall where
  | getTestcase (key : String) (fields : Option String)
  | createTestcase (data : JValue)
  | updateTestcase (key : String) (data : JValue)
  | deleteTestcase (key : String)
  | getTestplan (key : String) (fields : Option String)
  | createTestplan (data : JValue)
  | getTestrun (key : String) (fields : Option String)
  | createTestrun (data : JValue)
  | createTestresult (data : JValue)
  | getTestcaseLatestResult (key : String)
  | getTestrunResults (key : String)
  | getTestSteps (issue : String) (proj : String)
  | addTestStep (issue : String) (proj : String) (req : TestStepRequest)
  | addMultipleTestSteps (issue : String) (proj : String) (reqs : List TestStepRequest)

/-- The complete observable outcome of one tool invocation: the response
dictionary (serialized by `json.dumps` at the boundary), the backend
calls performed, and the log records emitted. -/
structure ToolResult where
  resp : List (String × JValue)
  calls : List BackendCall
  logs : List LogRec

/-- Look a field up in a response dictionary. -/
def respGet (r : ToolResult) (k : String) : Option JValue :=
  (r.resp.find? (fun p => p.1 == k)).map (fun p => p.2)

/-- Modelled from the spec: the denial envelope produced by the
`check_write_access` decorator (`utils/decorators.py`, not among the
sources verified here).  Per §4.2 it is a Tool Envelope Result with
`success = false` and an error indicating read-only mode, returned
immediately, with the wrapped operation never executed. -/
def readOnlyDenial : ToolResult :=
  { resp := [("success", JValue.bool false),
             ("error", JValue.str "Cannot perform this operation: the server is running in read-only mode")]
    calls := []
    logs := [] }

/-- Modelled from the spec: the `check_write_access` decorator
(`utils/decorators.py`, not among the sources verified here).  §4.2: it
consults the process-wide Write-Access Flag before the wrapped operation
runs; if false it short-circuits with the denial envelope and the wrapped
operation never executes; if true the wrapped operation executes normally
and its outcome flows through unchanged. -/
def check_write_access (writeAccess : Bool) (body : Unit → ToolResult) : ToolResult :=
  if writeAccess then body () else readOnlyDenial

/-- Embeds the `get_testcase` tool (`servers/zephyr.py` lines 26-57). -/
def get_testcase (fetcher : ZephyrFetcher) (test_case_key : String)
    (fields : Option String) : ToolResult :=
  match fetcher.get_testcase test_case_key fields with
  | Except.ok tc =>
    { resp := [("success", JValue.bool true), ("test_case", tc)]
      calls := [BackendCall.getTestcase test_case_key fields]
      logs := [] }
  | Except.error e =>
    if e.kind == FaultKind.notFound then
      { resp := [("success", JValue.bool false),
                 ("error", JValue.str ("Test case not found: " ++ e.msg))]
        calls := [BackendCall.getTestcase test_case_key fields]
        logs := [] }
    else
      { resp := [("success", JValue.bool false),
                 ("error", JValue.str ("Failed to get test case: " ++ e.msg))]
        calls := [BackendCall.getTestcase test_case_key fields]
        logs := [LogRec.exceptionLog ("Error getting test case " ++ test_case_key) e] }

/-- Embeds the `get_testplan` tool (`servers/zephyr.py` lines 205-236). -/
def get_testplan (fetcher : ZephyrFetcher) (test_plan_key : String)
    (fields : Option String) : ToolResult :=
  match fetcher.get_testplan test_plan_key fields with
  | Except.ok tp =>
    { resp := [("success", JValue.bool true), ("test_plan", tp)]
      calls := [BackendCall.getTestplan test_plan_key fields]
      logs := [] }
  | Except.error e =>
    if e.kind == FaultKind.notFound then
      { resp := [("success", JValue.bool false),
                 ("error", JValue.str ("Test plan not found: " ++ e.msg))]
        calls := [BackendCall.getTestplan test_plan_key fields]
        logs := [] }
    else
      { resp := [("success", JValue.bool false),
                 ("error", JValue.str ("Failed to get test plan: " ++ e.msg))]
        calls := [BackendCall.getTestplan test_plan_key fields]
        logs := [LogRec.exceptionLog ("Error getting test plan " ++ test_plan_key) e] }

/-- Embeds the `get_testrun` tool (`servers/zephyr.py` lines 316-347). -/
def get_testrun (fetcher : ZephyrFetcher) (test_run_key : String)
    (fields : Option String) : ToolResult :=
  match fetcher.get_testrun test_run_key fields with
  | Except.ok tr =>
    { resp := [("success", JValue.bool true), ("test_run", tr)]
      calls := [BackendCall.getTestrun test_run_key fields]
      logs := [] }
  | Except.error e =>
    if e.kind == FaultKind.notFound then
      { resp := [("success", JValue.bool false),
                 ("error", JValue.str ("Test run not found: " ++ e.msg))]
        calls := [BackendCall.getTestrun test_run_key fields]
        logs := [] }
    else
      { resp := [("success", JValue.bool false),
                 ("error", JValue.str ("Failed to get test run: " ++ e.msg))]
        calls := [BackendCall.getTestrun test_run_key fields]
        logs := [LogRec.exceptionLog ("Error getting test run " ++ test_run_key) e] }

/-- Embeds the `get_testrun_results` tool (`servers/zephyr.py` lines
488-515). -/
def get_testrun_results (fetcher : ZephyrFetcher) (test_run_key : String) : ToolResult :=
  match fetcher.get_testrun_results test_run_key with
  | Except.ok results =>
    { resp := [("success", JValue.bool true), ("test_results", JValue.arr results),
               ("count", JValue.num (Int.ofNat results.length))]
      calls := [BackendCall.getTestrunResults test_run_key]
      logs := [] }
  | Except.error e =>
    if e.kind == FaultKind.notFound then
      { resp := [("success", JValue.bool false),
                 ("error", JValue.str ("Test run not found: " ++ e.msg))]
        calls := [BackendCall.getTestrunResults test_run_key]
        logs := [] }
    else
      { resp := [("success", JValue.bool false),
                 ("error", JValue.str ("Failed to get test run results: " ++ e.msg))]
        calls := [BackendCall.getTestrunResults test_run_key]
        logs := [LogRec.exceptionLog ("Error getting test results for test run " ++ test_run_key) e] }

/-- Embeds the `get_testcase_latest_result` tool (`servers/zephyr.py`
lines 457-484): an absent (falsy) latest result is a successful outcome
with a null `test_result` and a "No results found" message. -/
def get_testcase_latest_result (fetcher : ZephyrFetcher) (test_case_key : String) : ToolResult :=
  match fetcher.get_testcase_latest_result test_case_key with
  | Except.ok (some tr) =>
    { resp := [("success", JValue.bool true), ("test_result", tr)]
      calls := [BackendCall.getTestcaseLatestResult test_case_key]
      logs := [] }
  | Except.ok none =>
    { resp := [("success", JValue.bool true), ("test_result", JValue.null),
               ("message", JValue.str "No results found")]
      calls := [BackendCall.getTestcaseLatestResult test_case_key]
      logs := [] }
  | Except.error e =>
    { resp := [("success", JValue.bool false),
               ("error", JValue.str ("Failed to get latest test result: " ++ e.msg))]
      calls := [BackendCall.getTestcaseLatestResult test_case_key]
      logs := [LogRec.exceptionLog ("Error getting latest result for test case " ++ test_case_key) e] }

/-- The `try` body and `except` clauses of `create_testcase`
(`servers/zephyr.py` lines 78-87), before the write-access gate is
applied.  `jsonLoads` stands for the standard library `json.loads`; a
parse failure is an exception caught by the generic `except Exception`. -/
def create_testcase_body (fetcher : ZephyrFetcher) (jsonLoads : String → Except String JValue)
    (testcase_data : String) : ToolResult :=
  match jsonLoads testcase_data with
  | Except.error e =>
    { resp := [("success", JValue.bool false),
               ("error", JValue.str ("Failed to create test case: " ++ e))]
      calls := []
      logs := [LogRec.exceptionLog "Error creating test case"
                 { kind := FaultKind.generic, msg := e, internal := "" }] }
  | Except.ok data =>
    match fetcher.create_testcase data with
    | Except.ok key =>
      { resp := [("success", JValue.bool true), ("test_case_key", JValue.str key)]
        calls := [BackendCall.createTestcase data]
        logs := [] }
    | Except.error e =>
      { resp := [("success", JValue.bool false),
                 ("error", JValue.str ("Failed to create test case: " ++ e.msg))]
        calls := [BackendCall.createTestcase data]
        logs := [LogRec.exceptionLog "Error creating test case" e] }

/-- Embeds the `create_testcase` tool (`servers/zephyr.py` lines 60-87):
the body wrapped by `@check_write_access`. -/
def create_testcase (writeAccess : Bool) (fetcher : ZephyrFetcher)
    (jsonLoads : String → Except String JValue) (testcase_data : String) : ToolResult :=
  check_write_access writeAccess (fun _ => create_testcase_body fetcher jsonLoads testcase_data)

/-- The `try` body and `except` clauses of `update_testcase`
(`servers/zephyr.py` lines 113-124). -/
def update_testcase_body (fetcher : ZephyrFetcher) (jsonLoads : String → Except String JValue)
    (test_case_key : String) (testcase_data : String) : ToolResult :=
  match jsonLoads testcase_data with
  | Except.error e =>
    { resp := [("success", JValue.bool false),
               ("error", JValue.str ("Failed to update test case: " ++ e))]
      calls := []
      logs := [LogRec.exceptionLog ("Error updating test case " ++ test_case_key)
                 { kind := FaultKind.generic, msg := e, internal := "" }] }
  | Except.ok data =>
    match fetcher.update_testcase test_case_key data with
    | Except.ok _ =>
      { resp := [("success", JValue.bool true),
                 ("message", JValue.str ("Test case " ++ test_case_key ++ " updated"))]
        calls := [BackendCall.updateTestcase test_case_key data]
        logs := [] }
    | Except.error e =>
      if e.kind == FaultKind.notFound then
        { resp := [("success", JValue.bool false),
                   ("error", JValue.str ("Test case not found: " ++ e.msg))]
          calls := [BackendCall.updateTestcase test_case_key data]
          logs := [] }
      else
        { resp := [("success", JValue.bool false),
                   ("error", JValue.str ("Failed to update test case: " ++ e.msg))]
          calls := [BackendCall.updateTestcase test_case_key data]
          logs := [LogRec.exceptionLog ("Error updating test case " ++ test_case_key) e] }

/-- Embeds the `update_testcase` tool (`servers/zephyr.py` lines 90-124). -/
def update_testcase (writeAccess : Bool) (fetcher : ZephyrFetcher)
    (jsonLoads : String → Except String JValue) (test_case_key testcase_data : String) : ToolResult :=
  check_write_access writeAccess
    (fun _ => update_testcase_body fetcher jsonLoads test_case_key testcase_data)

/-- The `try` body and `except` clauses of `delete_testcase`
(`servers/zephyr.py` lines 145-155). -/
def delete_testcase_body (fetcher : ZephyrFetcher) (test_case_key : String) : ToolResult :=
  match fetcher.delete_testcase test_case_key with
  | Except.ok _ =>
    { resp := [("success", JValue.bool true),
               ("message", JValue.str ("Test case " ++ test_case_key ++ " deleted"))]
      calls := [BackendCall.deleteTestcase test_case_key]
      logs := [] }
  | Except.error e =>
    if e.kind == FaultKind.notFound then
      { resp := [("success", JValue.bool false),
                 ("error", JValue.str ("Test case not found: " ++ e.msg))]
        calls := [BackendCall.deleteTestcase test_case_key]
        logs := [] }
    else
      { resp := [("success", JValue.bool false),
                 ("error", JValue.str ("Failed to delete test case: " ++ e.msg))]
        calls := [BackendCall.deleteTestcase test_case_key]
        logs := [LogRec.exceptionLog ("Error deleting test case " ++ test_case_key) e] }

/-- Embeds the `delete_testcase` tool (`servers/zephyr.py` lines 127-155). -/
def delete_testcase (writeAccess : Bool) (fetcher : ZephyrFetcher)
    (test_case_key : String) : ToolResult :=
  check_write_access writeAccess (fun _ => delete_testcase_body fetcher test_case_key)

/-- The `try` body and `except` clauses of `create_testplan`
(`servers/zephyr.py` lines 257-266). -/
def create_testplan_body (fetcher : ZephyrFetcher) (jsonLoads : String → Except String JValue)
    (testplan_data : String) : ToolResult :=
  match jsonLoads testplan_data with
  | Except.error e =>
    { resp := [("success", JValue.bool false),
               ("error", JValue.str ("Failed to create test plan: " ++ e))]
      calls := []
      logs := [LogRec.exceptionLog "Error creating test plan"
                 { kind := FaultKind.generic, msg := e, internal := "" }] }
  | Except.ok data =>
    match fetcher.create_testplan data with
    | Except.ok key =>
      { resp := [("success", JValue.bool true), ("test_plan_key", JValue.str key)]
        calls := [BackendCall.createTestplan data]
        logs := [] }
    | Except.error e =>
      { resp := [("success", JValue.bool false),
                 ("error", JValue.str ("Failed to create test plan: " ++ e.msg))]
        calls := [BackendCall.createTestplan data]
        logs := [LogRec.exceptionLog "Error creating test plan" e] }

/-- Embeds the `create_testplan` tool (`servers/zephyr.py` lines 239-266). -/
def create_testplan (writeAccess : Bool) (fetcher : ZephyrFetcher)
    (jsonLoads : String → Except String JValue) (testplan_data : String) : ToolResult :=
  check_write_access writeAccess (fun _ => create_testplan_body fetcher jsonLoads testplan_data)

/-- The `try` body and `except` clauses of `create_testrun`
(`servers/zephyr.py` lines 368-377). -/
def create_testrun_body (fetcher : ZephyrFetcher) (jsonLoads : String → Except String JValue)
    (testrun_data : String) : ToolResult :=
  match jsonLoads testrun_data with
  | Except.error e =>
    { resp := [("success", JValue.bool false),
               ("error", JValue.str ("Failed to create test run: " ++ e))]
      calls := []
      logs := [LogRec.exceptionLog "Error creating test run"
                 { kind := FaultKind.generic, msg := e, internal := "" }] }
  | Except.ok data =>
    match fetcher.create_testrun data with
    | Except.ok key =>
      { resp := [("success", JValue.bool true), ("test_run_key", JValue.str key)]
        calls := [BackendCall.createTestrun data]
        logs := [] }
    | Except.error e =>
      { resp := [("success", JValue.bool false),
                 ("error", JValue.str ("Failed to create test run: " ++ e.msg))]
        calls := [BackendCall.createTestrun data]
        logs := [LogRec.exceptionLog "Error creating test run" e] }

/-- Embeds the `create_testrun` tool (`servers/zephyr.py` lines 350-377). -/
def create_testrun (writeAccess : Bool) (fetcher : ZephyrFetcher)
    (jsonLoads : String → Except String JValue) (testrun_data : String) : ToolResult :=
  check_write_access writeAccess (fun _ => create_testrun_body fetcher jsonLoads testrun_data)

/-- The `try` body and `except` clauses of `create_testresult`
(`servers/zephyr.py` lines 444-453). -/
def create_testresult_body (fetcher : ZephyrFetcher) (jsonLoads : String → Except String JValue)
    (testresult_data : String) : ToolResult :=
  match jsonLoads testresult_data with
  | Except.error e =>
    { resp := [("success", JValue.bool false),
               ("error", JValue.str ("Failed to create test result: " ++ e))]
      calls := []
      logs := [LogRec.exceptionLog "Error creating test result"
                 { kind := FaultKind.generic, msg := e, internal := "" }] }
  | Except.ok data =>
    match fetcher.create_testresult data with
    | Except.ok rid =>
      { resp := [("success", JValue.bool true), ("test_result_id", JValue.str rid)]
        calls := [BackendCall.createTestresult data]
        logs := [] }
    | Except.error e =>
      { resp := [("success", JValue.bool false),
                 ("error", JValue.str ("Failed to create test result: " ++ e.msg))]
        calls := [BackendCall.createTestresult data]
        logs := [LogRec.exceptionLog "Error creating test result" e] }

/-- Embeds the `create_testresult` tool (`servers/zephyr.py` lines
426-453). -/
def create_testresult (writeAccess : Bool) (fetcher : ZephyrFetcher)
    (jsonLoads : String → Except String JValue) (testresult_data : String) : ToolResult :=
  check_write_access writeAccess (fun _ => create_testresult_body fetcher jsonLoads testresult_data)

/-- Embeds the `get_test_steps` tool (`servers/zephyr.py` lines 521-583).
The `except` clause computes an `error_message` and a `log_level`
(`WARNING` for a `ValueError` whose text contains "not found",
`"Authentication/Permission Error: "`-prefixed text for an
authentication fault, a generic text plus a `logger.exception` record
otherwise), but the response dictionary always carries `str(e)` in its
`error` field, with the issue and project ids echoed. -/
def get_test_steps (fetcher : ZephyrFetcher) (issue_id project_id : String) : ToolResult :=
  match fetcher.get_test_steps issue_id project_id with
  | Except.ok result =>
    { resp := [("success", JValue.bool true), ("test_steps", result)]
      calls := [BackendCall.getTestSteps issue_id project_id]
      logs := [] }
  | Except.error e =>
    let branch : String × Level × List LogRec :=
      if e.kind == FaultKind.valueError && strContainsB "not found" (pyLower e.msg) then
        (e.msg, Level.warning, [])
      else if e.kind == FaultKind.authError then
        ("Authentication/Permission Error: " ++ e.msg, Level.error, [])
      else
        ("An unexpected error occurred while fetching test steps.", Level.error,
         [LogRec.exceptionLog ("Unexpected error in get_test_steps for issue '" ++ issue_id ++ "':") e])
    { resp := [("success", JValue.bool false), ("error", JValue.str e.msg),
               ("issue_id", JValue.str issue_id), ("project_id", JValue.str project_id)]
      calls := [BackendCall.getTestSteps issue_id project_id]
      logs := branch.2.2
        ++ [LogRec.levelLog branch.2.1
              ("get_test_steps failed for issue '" ++ issue_id ++ "': " ++ branch.1)] }

/-- The `try` body and `except` clauses of `add_test_step`
(`servers/zephyr.py` lines 639-683). -/
def add_test_step_body (fetcher : ZephyrFetcher) (issue_id project_id step : String)
    (data result : Option String) : ToolResult :=
  let step_request : TestStepRequest := { step := step, data := data, result := result }
  match fetcher.add_test_step issue_id project_id step_request with
  | Except.ok test_step =>
    { resp := [("success", JValue.bool true), ("test_step", test_step),
               ("issue_id", JValue.str issue_id), ("project_id", JValue.str project_id)]
      calls := [BackendCall.addTestStep issue_id project_id step_request]
      logs := [] }
  | Except.error e =>
    let branch : String × List LogRec :=
      if e.kind == FaultKind.authError then
        ("Authentication/Permission Error: " ++ e.msg, [])
      else
        ("An unexpected error occurred while adding the test step.",
         [LogRec.exceptionLog ("Unexpected error in add_test_step for issue '" ++ issue_id ++ "':") e])
    { resp := [("success", JValue.bool false), ("error", JValue.str e.msg),
               ("issue_id", JValue.str issue_id), ("project_id", JValue.str project_id)]
      calls := [BackendCall.addTestStep issue_id project_id step_request]
      logs := branch.2
        ++ [LogRec.levelLog Level.error
              ("add_test_step failed for issue '" ++ issue_id ++ "': " ++ branch.1)] }

/-- Embeds the `add_test_step` tool (`servers/zephyr.py` lines 586-683). -/
def add_test_step (writeAccess : Bool) (fetcher : ZephyrFetcher)
    (issue_id project_id step : String) (data result : Option String) : ToolResult :=
  check_write_access writeAccess
    (fun _ => add_test_step_body fetcher issue_id project_id step data result)

/-- The `try` body and `except` clauses of `add_multiple_test_steps`
(`servers/zephyr.py` lines 729-810): parse the `steps` JSON (early
return on a decode error), require a JSON array (early return otherwise),
build the step requests in input order (early return naming the index of
the first element whose construction raises), then submit the whole batch
to the backend in one call and report `total_requested` versus
`total_created`. -/
def add_multiple_test_steps_body (fetcher : ZephyrFetcher)
    (jsonLoads : String → Except String JValue) (issue_id project_id steps : String) : ToolResult :=
  match jsonLoads steps with
  | Except.error e =>
    { resp := [("success", JValue.bool false),
               ("error", JValue.str ("Invalid JSON format for steps: " ++ e)),
               ("issue_id", JValue.str issue_id), ("project_id", JValue.str project_id)]
      calls := []
      logs := [] }
  | Except.ok steps_data =>
    match steps_data with
    | JValue.arr elems =>
      match parseSteps elems 0 with
      | Except.error ie =>
        { resp := [("success", JValue.bool false),
                   ("error", JValue.str ("Invalid step data at index " ++ toString ie.1 ++ ": " ++ ie.2.msg)),
                   ("issue_id", JValue.str issue_id), ("project_id", JValue.str project_id)]
          calls := []
          logs := [] }
      | Except.ok step_requests =>
        match fetcher.add_multiple_test_steps issue_id project_id step_requests with
        | Except.ok created_steps =>
          { resp := [("success", JValue.bool true),
                     ("test_steps", JValue.arr created_steps),
                     ("total_requested", JValue.num (Int.ofNat step_requests.length)),
                     ("total_created", JValue.num (Int.ofNat created_steps.length)),
                     ("issue_id", JValue.str issue_id), ("project_id", JValue.str project_id)]
            calls := [BackendCall.addMultipleTestSteps issue_id project_id step_requests]
            logs := [] }
        | Except.error e =>
          let branch : String × List LogRec :=
            if e.kind == FaultKind.authError then
              ("Authentication/Permission Error: " ++ e.msg, [])
            else
              ("An unexpected error occurred while adding test steps.",
               [LogRec.exceptionLog
                  ("Unexpected error in add_multiple_test_steps for issue '" ++ issue_id ++ "':") e])
          { resp := [("success", JValue.bool false), ("error", JValue.str e.msg),
                     ("issue_id", JValue.str issue_id), ("project_id", JValue.str project_id)]
            calls := [BackendCall.addMultipleTestSteps issue_id project_id step_requests]
            logs := branch.2
              ++ [LogRec.levelLog Level.error
                    ("add_multiple_test_steps failed for issue '" ++ issue_id ++ "': " ++ branch.1)] }
    | _ =>
      { resp := [("success", JValue.bool false),
                 ("error", JValue.str "Steps must be a JSON array"),
                 ("issue_id", JValue.str issue_id), ("project_id", JValue.str project_id)]
        calls := []
        logs := [] }

/-- Embeds the `add_multiple_test_steps` tool (`servers/zephyr.py` lines
686-810). -/
def add_multiple_test_steps (writeAccess : Bool) (fetcher : ZephyrFetcher)
    (jsonLoads : String → Except String JValue) (issue_id project_id steps : String) : ToolResult :=
  check_write_access writeAccess
    (fun _ => add_multiple_test_steps_body fetcher jsonLoads issue_id project_id steps)

/-- Substring relation on strings (Python `sub in s`), as a proposition. -/
def strContains (sub s : String) : Prop :=
  sub.data <:+: s.data

instance (sub s : String) : Decidable (strContains sub s) :=
  inferInstanceAs (Decidable (sub.data <:+: s.data))

/-- A concrete backend collaborator for witnesses: every verb succeeds. -/
def okFetcher : ZephyrFetcher where
  get_testcase := fun _ _ => Except.ok (JValue.obj [])
  create_testcase := fun _ => Except.ok "JQA-T1"
  update_testcase := fun _ _ => Except.ok ()
  delete_testcase := fun _ => Except.ok ()
  get_testplan := fun _ _ => Except.ok (JValue.obj [])
  create_testplan := fun _ => Except.ok "JQA-P1"
  get_testrun := fun _ _ => Except.ok (JValue.obj [])
  create_testrun := fun _ => Except.ok "JQA-R1"
  create_testresult := fun _ => Except.ok "1"
  get_testcase_latest_result := fun _ => Except.ok none
  get_testrun_results := fun _ => Except.ok []
  get_test_steps := fun _ _ => Except.ok (JValue.obj [])
  add_test_step := fun _ _ _ => Except.ok (JValue.obj [])
  add_multiple_test_steps := fun _ _ reqs => Except.ok (reqs.map (fun _ => JValue.obj []))

/-- A not-found fault whose text echoes the requested key, raised by
every get-style verb (for the C6 witness). -/
def c6Fault : Fault :=
  { kind := FaultKind.notFound, msg := "Entity JQA-T7 does not exist", internal := "" }

/-- Backend for the C6 witness: every get-style verb raises `c6Fault`. -/
def c6Fetcher : ZephyrFetcher :=
  { okFetcher with
    get_testcase := fun _ _ => Except.error c6Fault
    get_testplan := fun _ _ => Except.error c6Fault
    get_testrun := fun _ _ => Except.error c6Fault
    get_testrun_results := fun _ => Except.error c6Fault }

/-- The three well-formed steps of the C5 witness batch. -/
def c5Steps : List JValue :=
  [JValue.obj [("step", JValue.str "Open login page")],
   JValue.obj [("step", JValue.str "Enter credentials"), ("data", JValue.str "user/pass")],
   JValue.obj [("step", JValue.str "Submit"), ("result", JValue.str "Logged in")]]

/-- `json.loads` behaviour on the C5 witness input. -/
def c5JsonLoads : String → Except String JValue :=
  fun s => if s == "[c5-steps]" then Except.ok (JValue.arr c5Steps) else Except.error "Expecting value"

/-- Backend for the C5 witness: the batch call creates only two steps. -/
def c5Fetcher : ZephyrFetcher :=
  { okFetcher with
    add_multiple_test_steps := fun _ _ _ => Except.ok [JValue.obj [], JValue.obj []] }

/-- The C4 failing input: three well-formed steps and a fourth element
that is missing the required `step` field. -/
def c4Steps : List JValue :=
  [JValue.obj [("step", JValue.str "Step 1")],
   JValue.obj [("step", JValue.str "Step 2")],
   JValue.obj [("step", JValue.str "Step 3")],
   JValue.obj [("data", JValue.str "orphan data")]]

/-- `json.loads` behaviour on the C4 failing input. -/
def c4JsonLoads : String → Except String JValue :=
  fun s => if s == "[c4-steps]" then Except.ok (JValue.arr c4Steps) else Except.error "Expecting value"

/-- An unexpected (generic) fault carrying internal state that `str(e)`
does not render (for C7). -/
def c7Fault : Fault :=
  { kind := FaultKind.generic, msg := "boom", internal := "Traceback frame data" }

/-- Backend for C7: `get_test_steps` and `get_testcase` raise the
generic fault. -/
def c7Fetcher : ZephyrFetcher :=
  { okFetcher with
    get_test_steps := fun _ _ => Except.error c7Fault
    get_testcase := fun _ _ => Except.error c7Fault }

/-- An authentication/permission fault (for C8). -/
def c8AuthFault : Fault :=
  { kind := FaultKind.authError, msg := "401 Unauthorized", internal := "" }

/-- Backend for C8: the three step tools raise the authentication fault. -/
def c8AuthFetcher : ZephyrFetcher :=
  { okFetcher with
    get_test_steps := fun _ _ => Except.error c8AuthFault
    add_test_step := fun _ _ _ => Except.error c8AuthFault
    add_multiple_test_steps := fun _ _ _ => Except.error c8AuthFault }

/-- Backend for C8's severity comparison: `get_test_steps` raises a
generic (unexpected) fault. -/
def c8GenFetcher : ZephyrFetcher :=
  { okFetcher with
    get_test_steps := fun _ _ =>
      Except.error { kind := FaultKind.generic, msg := "boom2", internal := "" } }

/-- The single well-formed step of the C8 witness batch. -/
def c8Steps : List JValue :=
  [JValue.obj [("step", JValue.str "s1")]]

/-- `json.loads` behaviour on the C8 witness input. -/
def c8JsonLoads : String → Except String JValue :=
  fun s => if s == "[c8-steps]" then Except.ok (JValue.arr c8Steps) else Except.error "Expecting value"

end MCPAtlassian

open MCPAtlassian

theorem strContains_append_left {sub a : String} (b : String) (h : strContains sub a) :
    strContains sub (a ++ b) := by
  obtain ⟨s, t, hst⟩ := h
  exact ⟨s, t ++ b.data, by rw [String.data_append, ← List.append_assoc, hst]⟩

theorem strContains_append_right {sub b : String} (a : String) (h : strContains sub b) :
    strContains sub (a ++ b) := by
  obtain ⟨s, t, hst⟩ := h
  refine ⟨a.data ++ s, t, ?_⟩
  rw [String.data_append, ← hst]
  simp [List.append_assoc]

/-- C1: while the Write-Access Flag is false, every mutating Zephyr tool
(`create_testcase`, `update_testcase`, `delete_testcase`,
`create_testplan`, `create_testrun`, `create_testresult`,
`add_test_step`, `add_multiple_test_steps`) returns the read-only denial
envelope (`success = false` with an error indicating read-only mode) and
performs zero backend calls, for every backend collaborator and every
input. -/
theorem C1_write_gate_short_circuits :
    ∀ (fetcher : ZephyrFetcher) (jsonLoads : String → Except String JValue)
      (s1 s2 s3 : String) (d r : Option String),
      create_testcase false fetcher jsonLoads s1 = readOnlyDenial ∧
      update_testcase false fetcher jsonLoads s1 s2 = readOnlyDenial ∧
      delete_testcase false fetcher s1 = readOnlyDenial ∧
      create_testplan false fetcher jsonLoads s1 = readOnlyDenial ∧
      create_testrun false fetcher jsonLoads s1 = readOnlyDenial ∧
      create_testresult false fetcher jsonLoads s1 = readOnlyDenial ∧
      add_test_step false fetcher s1 s2 s3 d r = readOnlyDenial ∧
      add_multiple_test_steps false fetcher jsonLoads s1 s2 s3 = readOnlyDenial ∧
      readOnlyDenial.calls = [] ∧
      respGet readOnlyDenial "success" = some (JValue.bool false) ∧
      ∃ em, respGet readOnlyDenial "error" = some (JValue.str em) ∧ strContains "read-only" em := by
  intro fetcher jsonLoads s1 s2 s3 d r
  refine ⟨rfl, rfl, rfl, rfl, rfl, rfl, rfl, rfl, rfl, rfl, ?_⟩
  exact ⟨_, rfl, by decide⟩

/-- C2: whenever a service base URL (`JIRA_URL` or `CONFLUENCE_URL`) is
present and all five OAuth client-credential variables are present, the
credential resolver selects the oauth-3lo-client-credentials mode and
marks that service usable, for every deployment-kind predicate
(cloud-shaped or server-shaped URL alike) and regardless of any
basic-auth or personal-token variables also present in the store. -/
theorem C2_oauth_client_credentials_precedence :
    ∀ (isCloudUrl : String → Bool) (env : Store),
      truthy (env "ATLASSIAN_OAUTH_CLIENT_ID") = true →
      truthy (env "ATLASSIAN_OAUTH_CLIENT_SECRET") = true →
      truthy (env "ATLASSIAN_OAUTH_REDIRECT_URI") = true →
      truthy (env "ATLASSIAN_OAUTH_SCOPE") = true →
      truthy (env "ATLASSIAN_OAUTH_CLOUD_ID") = true →
      (truthy (env "JIRA_URL") = true →
        jiraSetup isCloudUrl env = (true, AuthMode.oauthClientCredentials) ∧
        (get_available_services isCloudUrl env).jira = true) ∧
      (truthy (env "CONFLUENCE_URL") = true →
        confluenceSetup isCloudUrl env = (true, AuthMode.oauthClientCredentials) ∧
        (get_available_services isCloudUrl env).confluence = true) := by
  intro isC env h1 h2 h3 h4 h5
  constructor
  · intro hurl
    have hj : jiraSetup isC env = (true, AuthMode.oauthClientCredentials) := by
      unfold jiraSetup
      simp [hurl, h1, h2, h3, h4, h5]
    exact ⟨hj, by simp [get_available_services, hj]⟩
  · intro hurl
    have hc : confluenceSetup isC env = (true, AuthMode.oauthClientCredentials) := by
      unfold confluenceSetup
      simp [hurl, h1, h2, h3, h4, h5]
    exact ⟨hc, by simp [get_available_services, hc]⟩

/-- C2 witness: a concrete store with a server-shaped URL judgement
(`isCloudUrl` constantly false), all five OAuth client-credential
variables, and basic-auth plus personal-token variables simultaneously
present, resolves both services to oauth-3lo-client-credentials and
usable. -/
theorem C2_oauth_client_credentials_precedence_witness :
    jiraSetup (fun _ => false)
        (envOf [("JIRA_URL", "https://jira.corp.internal"),
                ("CONFLUENCE_URL", "https://wiki.corp.internal"),
                ("ATLASSIAN_OAUTH_CLIENT_ID", "cid"),
                ("ATLASSIAN_OAUTH_CLIENT_SECRET", "sec"),
                ("ATLASSIAN_OAUTH_REDIRECT_URI", "uri"),
                ("ATLASSIAN_OAUTH_SCOPE", "scope"),
                ("ATLASSIAN_OAUTH_CLOUD_ID", "cld"),
                ("JIRA_USERNAME", "u"), ("JIRA_API_TOKEN", "tok"),
                ("JIRA_PERSONAL_TOKEN", "pat"),
                ("CONFLUENCE_USERNAME", "u"), ("CONFLUENCE_API_TOKEN", "tok"),
                ("CONFLUENCE_PERSONAL_TOKEN", "pat")])
      = (true, AuthMode.oauthClientCredentials) ∧
    confluenceSetup (fun _ => false)
        (envOf [("JIRA_URL", "https://jira.corp.internal"),
                ("CONFLUENCE_URL", "https://wiki.corp.internal"),
                ("ATLASSIAN_OAUTH_CLIENT_ID", "cid"),
                ("ATLASSIAN_OAUTH_CLIENT_SECRET", "sec"),
                ("ATLASSIAN_OAUTH_REDIRECT_URI", "uri"),
                ("ATLASSIAN_OAUTH_SCOPE", "scope"),
                ("ATLASSIAN_OAUTH_CLOUD_ID", "cld"),
                ("JIRA_USERNAME", "u"), ("JIRA_API_TOKEN", "tok"),
                ("JIRA_PERSONAL_TOKEN", "pat"),
                ("CONFLUENCE_USERNAME", "u"), ("CONFLUENCE_API_TOKEN", "tok"),
                ("CONFLUENCE_PERSONAL_TOKEN", "pat")])
      = (true, AuthMode.oauthClientCredentials) := by
  have h := C2_oauth_client_credentials_precedence (fun _ => false)
    (envOf [("JIRA_URL", "https://jira.corp.internal"),
            ("CONFLUENCE_URL", "https://wiki.corp.internal"),
            ("ATLASSIAN_OAUTH_CLIENT_ID", "cid"),
            ("ATLASSIAN_OAUTH_CLIENT_SECRET", "sec"),
            ("ATLASSIAN_OAUTH_REDIRECT_URI", "uri"),
            ("ATLASSIAN_OAUTH_SCOPE", "scope"),
            ("ATLASSIAN_OAUTH_CLOUD_ID", "cld"),
            ("JIRA_USERNAME", "u"), ("JIRA_API_TOKEN", "tok"),
            ("JIRA_PERSONAL_TOKEN", "pat"),
            ("CONFLUENCE_USERNAME", "u"), ("CONFLUENCE_API_TOKEN", "tok"),
            ("CONFLUENCE_PERSONAL_TOKEN", "pat")])
    (by decide) (by decide) (by decide) (by decide) (by decide)
  exact ⟨(h.1 (by decide)).1, (h.2 (by decide)).1⟩

/-- C3 counterexample: the claim quantifies over every service, but the
test-management (zephyr) service ignores `ATLASSIAN_OAUTH_ENABLE`.  In a
store whose only variable is `ATLASSIAN_OAUTH_ENABLE = "true"`, no zephyr
base URL is set and the flag is truthy, yet the availability map reports
zephyr as unavailable. -/
theorem C3_counterexample :
    oauthEnableTruthy (envOf [("ATLASSIAN_OAUTH_ENABLE", "true")]) = true ∧
    truthy (envOf [("ATLASSIAN_OAUTH_ENABLE", "true")] "ZEPHYR_BASE_URL") = false ∧
    (get_available_services (fun _ => false) (envOf [("ATLASSIAN_OAUTH_ENABLE", "true")])).zephyr
      = false := by
  refine ⟨by decide, by decide, rfl⟩

/-- C3 (amended): for the primary-tracker and wiki services (jira,
confluence), with no base URL set for that service, availability is true
with mode minimal-oauth-header-provided exactly when
`ATLASSIAN_OAUTH_ENABLE` is `"true"`, `"1"` or `"yes"` case-insensitively,
and false (unconfigured) for any other value including unset; the
test-management service is independent of this flag and is unavailable
whenever its base URL is absent. -/
theorem C3_minimal_oauth_amended :
    ∀ (isCloudUrl : String → Bool) (env : Store),
      (truthy (env "JIRA_URL") = false → oauthEnableTruthy env = true →
        jiraSetup isCloudUrl env = (true, AuthMode.minimalOAuthHeader)) ∧
      (truthy (env "JIRA_URL") = false → oauthEnableTruthy env = false →
        jiraSetup isCloudUrl env = (false, AuthMode.unconfigured)) ∧
      (truthy (env "CONFLUENCE_URL") = false → oauthEnableTruthy env = true →
        confluenceSetup isCloudUrl env = (true, AuthMode.minimalOAuthHeader)) ∧
      (truthy (env "CONFLUENCE_URL") = false → oauthEnableTruthy env = false →
        confluenceSetup isCloudUrl env = (false, AuthMode.unconfigured)) ∧
      (truthy (env "ZEPHYR_BASE_URL") = false → (zephyrSetup env).1 = false) := by
  intro isC env
  refine ⟨?_, ?_, ?_, ?_, ?_⟩
  · intro hurl he
    unfold jiraSetup
    simp [hurl, he]
  · intro hurl he
    unfold jiraSetup
    simp [hurl, he]
  · intro hurl he
    unfold confluenceSetup
    simp [hurl, he]
  · intro hurl he
    unfold confluenceSetup
    simp [hurl, he]
  · intro hurl
    unfold zephyrSetup
    simp [hurl]
    split <;> rfl

/-- C3 witness: concrete stores exercising both directions of the
amended claim: `"Yes"` enables jira and confluence in
minimal-oauth-header mode with no URL set; the empty store leaves them
unconfigured; and the flag leaves zephyr unavailable. -/
theorem C3_minimal_oauth_amended_witness :
    jiraSetup (fun _ => true) (envOf [("ATLASSIAN_OAUTH_ENABLE", "Yes")])
      = (true, AuthMode.minimalOAuthHeader) ∧
    confluenceSetup (fun _ => true) (envOf [("ATLASSIAN_OAUTH_ENABLE", "Yes")])
      = (true, AuthMode.minimalOAuthHeader) ∧
    jiraSetup (fun _ => true) (envOf []) = (false, AuthMode.unconfigured) ∧
    confluenceSetup (fun _ => true) (envOf []) = (false, AuthMode.unconfigured) ∧
    (zephyrSetup (envOf [("ATLASSIAN_OAUTH_ENABLE", "Yes")])).1 = false := by
  have h1 := C3_minimal_oauth_amended (fun _ => true) (envOf [("ATLASSIAN_OAUTH_ENABLE", "Yes")])
  have h2 := C3_minimal_oauth_amended (fun _ => true) (envOf [])
  exact ⟨h1.1 (by decide) (by decide), h1.2.2.1 (by decide) (by decide),
         h2.2.1 (by decide) (by decide), h2.2.2.2.1 (by decide) (by decide),
         h1.2.2.2.2 (by decide)⟩

/-- C9: the test-management service is available exactly when both
`ZEPHYR_API_TOKEN` and `ZEPHYR_BASE_URL` are present; when exactly one is
present the resolution reaches the distinguishable missing-URL or
missing-token state respectively, both unusable, and the availability
map reports the flag of this resolution. -/
theorem C9_zephyr_resolution :
    ∀ (isCloudUrl : String → Bool) (env : Store),
      ((zephyrSetup env).1 = true ↔
        truthy (env "ZEPHYR_API_TOKEN") = true ∧ truthy (env "ZEPHYR_BASE_URL") = true) ∧
      (get_available_services isCloudUrl env).zephyr = (zephyrSetup env).1 ∧
      (truthy (env "ZEPHYR_API_TOKEN") = true → truthy (env "ZEPHYR_BASE_URL") = false →
        zephyrSetup env = (false, ZephyrState.missingUrl)) ∧
      (truthy (env "ZEPHYR_BASE_URL") = true → truthy (env "ZEPHYR_API_TOKEN") = false →
        zephyrSetup env = (false, ZephyrState.missingToken)) ∧
      ZephyrState.missingUrl ≠ ZephyrState.missingToken := by
  intro isC env
  refine ⟨?_, rfl, ?_, ?_, by decide⟩
  · unfold zephyrSetup
    cases h1 : truthy (env "ZEPHYR_API_TOKEN") <;>
      cases h2 : truthy (env "ZEPHYR_BASE_URL") <;> simp
  · intro h1 h2
    unfold zephyrSetup
    simp [h1, h2]
  · intro h1 h2
    unfold zephyrSetup
    simp [h1, h2]

/-- C10: when the backend reports no latest result for a test case (an
absent result rather than a raised fault), `get_testcase_latest_result`
returns a successful envelope with a null `test_result` and the message
"No results found". -/
theorem C10_latest_result_absent_is_success :
    ∀ (fetcher : ZephyrFetcher) (key : String),
      fetcher.get_testcase_latest_result key = Except.ok none →
      (get_testcase_latest_result fetcher key).resp =
        [("success", JValue.bool true), ("test_result", JValue.null),
         ("message", JValue.str "No results found")] ∧
      (get_testcase_latest_result fetcher key).calls =
        [BackendCall.getTestcaseLatestResult key] := by
  intro fetcher key h
  unfold get_testcase_latest_result
  rw [h]
  exact ⟨rfl, rfl⟩

/-- C10 witness: a concrete backend with no stored results yields the
null-result success envelope for test case JQA-T1. -/
theorem C10_latest_result_absent_is_success_witness :
    (get_testcase_latest_result okFetcher "JQA-T1").resp =
      [("success", JValue.bool true), ("test_result", JValue.null),
       ("message", JValue.str "No results found")] :=
  (C10_latest_result_absent_is_success okFetcher "JQA-T1" rfl).1

/-- C6: for each get-style tool (`get_testcase`, `get_testplan`,
`get_testrun`, `get_testrun_results`), a not-found fault whose message
carries the identifying key (the backend mixin echoes the requested key
into the fault text, per the spec's known-absence contract) yields
`success = false` with an error string that states not-found and contains
that key. -/
theorem C6_not_found_echoes_key :
    ∀ (fetcher : ZephyrFetcher) (key : String) (fields : Option String) (e : Fault),
      e.kind = FaultKind.notFound →
      strContains key e.msg →
      (fetcher.get_testcase key fields = Except.error e →
        respGet (get_testcase fetcher key fields) "success" = some (JValue.bool false) ∧
        ∃ em, respGet (get_testcase fetcher key fields) "error" = some (JValue.str em) ∧
          strContains "not found" em ∧ strContains key em) ∧
      (fetcher.get_testplan key fields = Except.error e →
        respGet (get_testplan fetcher key fields) "success" = some (JValue.bool false) ∧
        ∃ em, respGet (get_testplan fetcher key fields) "error" = some (JValue.str em) ∧
          strContains "not found" em ∧ strContains key em) ∧
      (fetcher.get_testrun key fields = Except.error e →
        respGet (get_testrun fetcher key fields) "success" = some (JValue.bool false) ∧
        ∃ em, respGet (get_testrun fetcher key fields) "error" = some (JValue.str em) ∧
          strContains "not found" em ∧ strContains key em) ∧
      (fetcher.get_testrun_results key = Except.error e →
        respGet (get_testrun_results fetcher key) "success" = some (JValue.bool false) ∧
        ∃ em, respGet (get_testrun_results fetcher key) "error" = some (JValue.str em) ∧
          strContains "not found" em ∧ strContains key em) := by
  intro fetcher key fields e hkind hkey
  obtain ⟨k, m, i⟩ := e
  cases hkind
  refine ⟨?_, ?_, ?_, ?_⟩
  · intro hcall
    unfold get_testcase
    rw [hcall]
    exact ⟨rfl, "Test case not found: " ++ m, rfl,
      strContains_append_left _ (by decide), strContains_append_right _ hkey⟩
  · intro hcall
    unfold get_testplan
    rw [hcall]
    exact ⟨rfl, "Test plan not found: " ++ m, rfl,
      strContains_append_left _ (by decide), strContains_append_right _ hkey⟩
  · intro hcall
    unfold get_testrun
    rw [hcall]
    exact ⟨rfl, "Test run not found: " ++ m, rfl,
      strContains_append_left _ (by decide), strContains_append_right _ hkey⟩
  · intro hcall
    unfold get_testrun_results
    rw [hcall]
    exact ⟨rfl, "Test run not found: " ++ m, rfl,
      strContains_append_left _ (by decide), strContains_append_right _ hkey⟩

/-- C6 witness: at key JQA-T7 each of the four get tools returns
`success = false` with an error stating not-found and containing the key. -/
theorem C6_not_found_echoes_key_witness :
    (respGet (get_testcase c6Fetcher "JQA-T7" none) "success" = some (JValue.bool false) ∧
      ∃ em, respGet (get_testcase c6Fetcher "JQA-T7" none) "error" = some (JValue.str em) ∧
        strContains "not found" em ∧ strContains "JQA-T7" em) ∧
    (respGet (get_testplan c6Fetcher "JQA-T7" none) "success" = some (JValue.bool false) ∧
      ∃ em, respGet (get_testplan c6Fetcher "JQA-T7" none) "error" = some (JValue.str em) ∧
        strContains "not found" em ∧ strContains "JQA-T7" em) ∧
    (respGet (get_testrun c6Fetcher "JQA-T7" none) "success" = some (JValue.bool false) ∧
      ∃ em, respGet (get_testrun c6Fetcher "JQA-T7" none) "error" = some (JValue.str em) ∧
        strContains "not found" em ∧ strContains "JQA-T7" em) ∧
    (respGet (get_testrun_results c6Fetcher "JQA-T7") "success" = some (JValue.bool false) ∧
      ∃ em, respGet (get_testrun_results c6Fetcher "JQA-T7") "error" = some (JValue.str em) ∧
        strContains "not found" em ∧ strContains "JQA-T7" em) := by
  have h := C6_not_found_echoes_key c6Fetcher "JQA-T7" none c6Fault rfl (by decide)
  exact ⟨h.1 rfl, h.2.1 rfl, h.2.2.1 rfl, h.2.2.2 rfl⟩

/-- C5: when every element of the steps array parses successfully and the
backend accepts the single batch call, the tool reports `success = true`
with `total_requested` equal to the number of parsed step requests and
`total_created` equal to the number of steps the backend created, in one
backend call — partial creation is a non-error terminal state. -/
theorem C5_partial_success_reported :
    ∀ (fetcher : ZephyrFetcher) (jsonLoads : String → Except String JValue)
      (issue proj steps : String) (elems : List JValue)
      (reqs : List TestStepRequest) (created : List JValue),
      jsonLoads steps = Except.ok (JValue.arr elems) →
      parseSteps elems 0 = Except.ok reqs →
      fetcher.add_multiple_test_steps issue proj reqs = Except.ok created →
      respGet (add_multiple_test_steps true fetcher jsonLoads issue proj steps) "success"
        = some (JValue.bool true) ∧
      respGet (add_multiple_test_steps true fetcher jsonLoads issue proj steps) "total_requested"
        = some (JValue.num (Int.ofNat reqs.length)) ∧
      respGet (add_multiple_test_steps true fetcher jsonLoads issue proj steps) "total_created"
        = some (JValue.num (Int.ofNat created.length)) ∧
      (add_multiple_test_steps true fetcher jsonLoads issue proj steps).calls
        = [BackendCall.addMultipleTestSteps issue proj reqs] := by
  intro fetcher jsonLoads issue proj steps elems reqs created h1 h2 h3
  unfold add_multiple_test_steps check_write_access add_multiple_test_steps_body
  simp only [h1, h2, h3]
  exact ⟨rfl, rfl, rfl, rfl⟩

/-- C5 witness: three well-formed steps of which the backend creates two:
`success = true`, `total_requested = 3`, `total_created = 2`. -/
theorem C5_partial_success_reported_witness :
    respGet (add_multiple_test_steps true c5Fetcher c5JsonLoads "12345" "10000" "[c5-steps]")
        "success" = some (JValue.bool true) ∧
    respGet (add_multiple_test_steps true c5Fetcher c5JsonLoads "12345" "10000" "[c5-steps]")
        "total_requested" = some (JValue.num 3) ∧
    respGet (add_multiple_test_steps true c5Fetcher c5JsonLoads "12345" "10000" "[c5-steps]")
        "total_created" = some (JValue.num 2) := by
  have h := C5_partial_success_reported c5Fetcher c5JsonLoads "12345" "10000" "[c5-steps]"
    c5Steps
    [{ step := "Open login page", data := none, result := none },
     { step := "Enter credentials", data := some "user/pass", result := none },
     { step := "Submit", data := none, result := some "Logged in" }]
    [JValue.obj [], JValue.obj []] rfl rfl rfl
  exact ⟨h.1, h.2.1, h.2.2.1⟩

/-- C4 (code bug): on a batch of three well-formed steps plus one element
missing the required `step` field, the tool does not reject the batch:
`steps_data.get("step", "")` silently defaults the missing field to the
empty string, all four requests are submitted to the backend in one call
(the fourth with an empty step description), and the tool reports
`success = true` with `total_created = 4` — contradicting the claimed
wholesale rejection with an error naming index 3 and zero submissions. -/
theorem C4_missing_step_field_is_submitted :
    (add_multiple_test_steps true okFetcher c4JsonLoads "12345" "10000" "[c4-steps]").calls
      = [BackendCall.addMultipleTestSteps "12345" "10000"
          [{ step := "Step 1", data := none, result := none },
           { step := "Step 2", data := none, result := none },
           { step := "Step 3", data := none, result := none },
           { step := "", data := some "orphan data", result := none }]] ∧
    respGet (add_multiple_test_steps true okFetcher c4JsonLoads "12345" "10000" "[c4-steps]")
        "success" = some (JValue.bool true) ∧
    respGet (add_multiple_test_steps true okFetcher c4JsonLoads "12345" "10000" "[c4-steps]")
        "total_created" = some (JValue.num 4) :=
  ⟨rfl, rfl, rfl⟩

/-- C7 counterexample: for an unexpected fault with message "boom" in
`get_test_steps`, the envelope's error string is "boom" — the fault's own
`str(e)` — and not the generic rendered message, which appears only in
the operational log line.  This falsifies the claim that only the generic
rendered message crosses the tool boundary. -/
theorem C7_counterexample :
    respGet (get_test_steps c7Fetcher "12345" "10000") "error" = some (JValue.str "boom") ∧
    "boom" ≠ "An unexpected error occurred while fetching test steps." ∧
    (get_test_steps c7Fetcher "12345" "10000").logs =
      [LogRec.exceptionLog "Unexpected error in get_test_steps for issue '12345':" c7Fault,
       LogRec.levelLog Level.error
         "get_test_steps failed for issue '12345': An unexpected error occurred while fetching test steps."] :=
  ⟨rfl, by decide, rfl⟩

/-- C7 (amended): on an unexpected fault, the envelope's error string is
the tool's rendering of the fault's message `str(e)` — exactly `str(e)`
for `get_test_steps`, a fixed prefix plus `str(e)` for `get_testcase` —
while the designated generic text of `get_test_steps` goes only to the
operational log line; the envelope is built from the fault's message
alone, so stack traces and internal object state never appear in it,
and the full fault (internal state included) is recorded to the
operational log by `logger.exception`. -/
theorem C7_unexpected_fault_amended :
    ∀ (fetcher : ZephyrFetcher) (issue proj key : String) (fields : Option String) (e : Fault),
      e.kind = FaultKind.generic →
      (fetcher.get_test_steps issue proj = Except.error e →
        (get_test_steps fetcher issue proj).resp =
          [("success", JValue.bool false), ("error", JValue.str e.msg),
           ("issue_id", JValue.str issue), ("project_id", JValue.str proj)] ∧
        (get_test_steps fetcher issue proj).logs =
          [LogRec.exceptionLog ("Unexpected error in get_test_steps for issue '" ++ issue ++ "':") e,
           LogRec.levelLog Level.error
             ("get_test_steps failed for issue '" ++ issue ++ "': "
               ++ "An unexpected error occurred while fetching test steps.")]) ∧
      (fetcher.get_testcase key fields = Except.error e →
        (get_testcase fetcher key fields).resp =
          [("success", JValue.bool false),
           ("error", JValue.str ("Failed to get test case: " ++ e.msg))] ∧
        (get_testcase fetcher key fields).logs =
          [LogRec.exceptionLog ("Error getting test case " ++ key) e]) := by
  intro fetcher issue proj key fields e hkind
  obtain ⟨k, m, i⟩ := e
  cases hkind
  constructor
  · intro hcall
    unfold get_test_steps
    rw [hcall]
    exact ⟨rfl, rfl⟩
  · intro hcall
    unfold get_testcase
    rw [hcall]
    exact ⟨rfl, rfl⟩

/-- C7 witness: the amended claim at the concrete fault "boom" with
internal state "Traceback frame data": the envelope carries only the
message, the log carries the full fault. -/
theorem C7_unexpected_fault_amended_witness :
    (get_test_steps c7Fetcher "12345" "10000").resp =
      [("success", JValue.bool false), ("error", JValue.str "boom"),
       ("issue_id", JValue.str "12345"), ("project_id", JValue.str "10000")] ∧
    (get_test_steps c7Fetcher "12345" "10000").logs =
      [LogRec.exceptionLog "Unexpected error in get_test_steps for issue '12345':" c7Fault,
       LogRec.levelLog Level.error
         "get_test_steps failed for issue '12345': An unexpected error occurred while fetching test steps."] ∧
    (get_testcase c7Fetcher "JQA-T1" none).resp =
      [("success", JValue.bool false), ("error", JValue.str "Failed to get test case: boom")] ∧
    (get_testcase c7Fetcher "JQA-T1" none).logs =
      [LogRec.exceptionLog "Error getting test case JQA-T1" c7Fault] := by
  have h := C7_unexpected_fault_amended c7Fetcher "12345" "10000" "JQA-T1" none c7Fault rfl
  exact ⟨(h.1 rfl).1, (h.1 rfl).2, (h.2 rfl).1, (h.2 rfl).2⟩

/-- C8 counterexample: for an authentication fault with message
"401 Unauthorized" in `get_test_steps`, the envelope's error string is
the bare `str(e)` and does not carry the "Authentication/Permission
Error:" prefix — the prefix appears only in the log line — and the fault
is logged at ERROR, the same severity at which an unexpected fault's log
line is written, not a lower one. -/
theorem C8_counterexample :
    respGet (get_test_steps c8AuthFetcher "12345" "10000") "error"
      = some (JValue.str "401 Unauthorized") ∧
    ¬ strContains "Authentication/Permission Error:" "401 Unauthorized" ∧
    (get_test_steps c8AuthFetcher "12345" "10000").logs =
      [LogRec.levelLog Level.error
        "get_test_steps failed for issue '12345': Authentication/Permission Error: 401 Unauthorized"] ∧
    (get_test_steps c8GenFetcher "12345" "10000").logs =
      [LogRec.exceptionLog "Unexpected error in get_test_steps for issue '12345':"
         { kind := FaultKind.generic, msg := "boom2", internal := "" },
       LogRec.levelLog Level.error
         "get_test_steps failed for issue '12345': An unexpected error occurred while fetching test steps."] :=
  ⟨rfl, by decide, rfl, rfl⟩

/-- C8 (amended): on an authentication/permission fault in
`get_test_steps`, `add_test_step` or `add_multiple_test_steps`, the
"Authentication/Permission Error:" prefix appears in the operational log
line, not in the envelope: the envelope's error string is the bare
`str(e)`, and the log line is written at ERROR — the same severity as an
unexpected fault's log line — though, unlike an unexpected fault, no
`logger.exception` record is emitted. -/
theorem C8_auth_fault_amended :
    ∀ (fetcher : ZephyrFetcher) (issue proj step : String) (d r : Option String)
      (jsonLoads : String → Except String JValue) (steps : String) (elems : List JValue)
      (reqs : List TestStepRequest) (e : Fault),
      e.kind = FaultKind.authError →
      (fetcher.get_test_steps issue proj = Except.error e →
        respGet (get_test_steps fetcher issue proj) "error" = some (JValue.str e.msg) ∧
        (get_test_steps fetcher issue proj).logs =
          [LogRec.levelLog Level.error
            ("get_test_steps failed for issue '" ++ issue ++ "': "
              ++ ("Authentication/Permission Error: " ++ e.msg))]) ∧
      (fetcher.add_test_step issue proj { step := step, data := d, result := r }
          = Except.error e →
        respGet (add_test_step true fetcher issue proj step d r) "error"
          = some (JValue.str e.msg) ∧
        (add_test_step true fetcher issue proj step d r).logs =
          [LogRec.levelLog Level.error
            ("add_test_step failed for issue '" ++ issue ++ "': "
              ++ ("Authentication/Permission Error: " ++ e.msg))]) ∧
      (jsonLoads steps = Except.ok (JValue.arr elems) →
        parseSteps elems 0 = Except.ok reqs →
        fetcher.add_multiple_test_steps issue proj reqs = Except.error e →
        respGet (add_multiple_test_steps true fetcher jsonLoads issue proj steps) "error"
          = some (JValue.str e.msg) ∧
        (add_multiple_test_steps true fetcher jsonLoads issue proj steps).logs =
          [LogRec.levelLog Level.error
            ("add_multiple_test_steps failed for issue '" ++ issue ++ "': "
              ++ ("Authentication/Permission Error: " ++ e.msg))]) := by
  intro fetcher issue proj step d r jsonLoads steps elems reqs e hkind
  obtain ⟨k, m, i⟩ := e
  cases hkind
  refine ⟨?_, ?_, ?_⟩
  · intro hcall
    unfold get_test_steps
    rw [hcall]
    exact ⟨rfl, rfl⟩
  · intro hcall
    unfold add_test_step check_write_access add_test_step_body
    simp only [hcall]
    exact ⟨rfl, rfl⟩
  · intro h1 h2 h3
    unfold add_multiple_test_steps check_write_access add_multiple_test_steps_body
    simp only [h1, h2, h3]
    exact ⟨rfl, rfl⟩

/-- C8 witness: the amended claim at the concrete authentication fault
"401 Unauthorized" for all three step tools. -/
theorem C8_auth_fault_amended_witness :
    respGet (get_test_steps c8AuthFetcher "12345" "10000") "error"
      = some (JValue.str "401 Unauthorized") ∧
    respGet (add_test_step true c8AuthFetcher "12345" "10000" "s" none none) "error"
      = some (JValue.str "401 Unauthorized") ∧
    respGet (add_multiple_test_steps true c8AuthFetcher c8JsonLoads "12345" "10000" "[c8-steps]")
        "error" = some (JValue.str "401 Unauthorized") := by
  have h := C8_auth_fault_amended c8AuthFetcher "12345" "10000" "s" none none
    c8JsonLoads "[c8-steps]" c8Steps [{ step := "s1", data := none, result := none }]
    c8AuthFault rfl
  exact ⟨(h.1 rfl).1, (h.2.1 rfl).1, (h.2.2 rfl rfl rfl).1⟩

/-- C9 witness: concrete stores for the three diagnostic shapes: both
variables present (usable), token without URL (missing-URL state), URL
without token (missing-token state). -/
theorem C9_zephyr_resolution_witness :
    (zephyrSetup (envOf [("ZEPHYR_API_TOKEN", "tok"), ("ZEPHYR_BASE_URL", "https://z")])).1 = true ∧
    zephyrSetup (envOf [("ZEPHYR_API_TOKEN", "tok")]) = (false, ZephyrState.missingUrl) ∧
    zephyrSetup (envOf [("ZEPHYR_BASE_URL", "https://z")]) = (false, ZephyrState.missingToken) := by
  have h1 := C9_zephyr_resolution (fun _ => false)
    (envOf [("ZEPHYR_API_TOKEN", "tok"), ("ZEPHYR_BASE_URL", "https://z")])
  have h2 := C9_zephyr_resolution (fun _ => false) (envOf [("ZEPHYR_API_TOKEN", "tok")])
  have h3 := C9_zephyr_resolution (fun _ => false) (envOf [("ZEPHYR_BASE_URL", "https://z")])
  exact ⟨h1.1.mpr ⟨by decide, by decide⟩, h2.2.2.1 (by decide) (by decide),
         h3.2.2.2.1 (by decide) (by decide)⟩
